import Mathlib

/-!
Shallow embedding of the fastapi-intro repository (src/src/main.py,
src/src/schemas.py, src/src/functions.py, src/src/enums.py) and proofs about
the behaviour of its route handlers and schema validation.

Modelling conventions:
- Pydantic models become Lean structures; optional fields become `Option`.
- Python `float` fields are modelled as `Rat` (no claim depends on float
  rounding); `datetime` values as integer timestamps, so a `timedelta` is an
  integer difference; `UUID` values as natural numbers.
- A handler that can raise becomes a function into `Except PyError _`; an
  uncaught Python exception (KeyError, AttributeError, TypeError) is a
  distinguished `PyError` constructor, unlike an `HTTPException` that the
  framework turns into an error response.
- The in-memory stores (dicts) become association lists; handlers that mutate
  a store take it as an argument and return the new store.
-/

namespace FastApiIntro

/-- HTTPException from fastapi, as raised by handlers in src/src/main.py:
a status code and a detail message. -/
structure HTTPException where
  status_code : Nat
  detail : String
  deriving Repr, DecidableEq

/-- Errors a request can end in: an HTTPException turned into an error
response by the framework, a 422 validation failure of a request body, or an
uncaught Python exception escaping the handler. -/
inductive PyError where
  | http (e : HTTPException)
  | validationError
  | keyError (key : String)
  | attributeError (attr : String)
  | typeError
  deriving Repr, DecidableEq

/-- Image schema from src/src/schemas.py: a name and an HTTP URL (the URL is
modelled as a plain string). -/
structure Image where
  name : String
  url : String
  deriving Repr, DecidableEq

/-- ItemOptions schema from src/src/schemas.py with its field defaults. -/
structure ItemOptions where
  promotion : Int := 0
  hidden : Bool := false
  shipping_available : Bool := true
  deriving Repr, DecidableEq

/-- Item schema from src/src/schemas.py. The `tags` set is modelled as a list
of strings; `price` carries the constraints gt=100, le=99999999 checked by
`Item.priceValid` at the validation boundary. -/
structure Item where
  name : String
  description : Option String := none
  price : Int
  tax : Option Rat := none
  tags : List String := []
  images : Option (List Image) := none
  deriving Repr, DecidableEq

/-- Validation constraint on Item.price from src/src/schemas.py:
`Field(gt=100, le=99999999)`. -/
def Item.priceValid (price : Int) : Bool :=
  (100 < price) && (price ≤ 99999999)

/-- Framework validation of an Item request body: the typed record is accepted
exactly when its price satisfies the declared bounds; otherwise the request
ends in a 422 validation error and no handler runs. -/
def parseItem (i : Item) : Except PyError Item :=
  if Item.priceValid i.price then .ok i else .error .validationError

/-- Response of POST /items/ (create_item in src/src/main.py): the item
fields, the added importance key, and the conditionally added
price_with_tax. -/
structure CreateItemResponse where
  item : Item
  importance : String
  price_with_tax : Option Rat
  deriving Repr, DecidableEq

/-- create_item handler from src/src/main.py. `if item.tax:` is Python
truthiness: both None and 0.0 skip the price_with_tax key. -/
def create_item (item : Item) : CreateItemResponse :=
  { item := item
    importance := "importance"
    price_with_tax :=
      match item.tax with
      | none => none
      | some t => if t = 0 then none else some ((item.price : Rat) + t) }

/-- POST /items/ pipeline: body validation, then the handler. -/
def postItemsRoute (i : Item) : Except PyError CreateItemResponse :=
  (parseItem i).map create_item

/-- Merged item part of the PUT /items/\x7bitem_id\x7d response: the path
item_id, the item fields, and the ItemOptions fields other than hidden. -/
structure PutItemBody where
  item_id : Int
  item : Item
  promotion : Int
  shipping_available : Bool
  deriving Repr, DecidableEq

/-- Response of PUT /items/\x7bitem_id\x7d: the query fields always, and the
merged item only when options.hidden is false. -/
structure PutItemResponse where
  query : String
  opt_query : Option String
  item : Option PutItemBody
  deriving Repr, DecidableEq

/-- update_item handler for PUT /items/\x7bitem_id\x7d in src/src/main.py.
The options body parameter defaults to None; the handler reads
options.hidden unguarded, so a missing options body raises AttributeError. -/
def update_item_put (item_id : Int) (item : Item) (options : Option ItemOptions)
    (q : String) (optional_query : Option String) : Except PyError PutItemResponse :=
  match options with
  | none => .error (.attributeError "hidden")
  | some opts =>
    if opts.hidden then
      .ok { query := q, opt_query := optional_query, item := none }
    else
      .ok { query := q, opt_query := optional_query,
            item := some { item_id := item_id, item := item,
                           promotion := opts.promotion,
                           shipping_available := opts.shipping_available } }

/-- PUT /items/\x7bitem_id\x7d pipeline: body validation of the Item, then the
handler. -/
def putItemRoute (item_id : Int) (i : Item) (options : Option ItemOptions)
    (q : String) (optional_query : Option String) : Except PyError PutItemResponse :=
  (parseItem i).bind (fun item => update_item_put item_id item options q optional_query)

/-- Incoming Item body of PATCH /items/\x7bitem_id\x7d together with the
information which optional fields were explicitly set in the request, as
observed by `item.dict(exclude_unset=True)`. The required fields name and
price are always set once validation has succeeded. -/
structure ItemPayload where
  item : Item
  descriptionSet : Bool
  taxSet : Bool
  tagsSet : Bool
  imagesSet : Bool
  deriving Repr, DecidableEq

/-- `stored_item_model.copy(update=update_data)` from the PATCH handler: each
explicitly set field of the payload replaces the stored field; name and price
are required, hence always part of update_data. -/
def copyUpdate (stored : Item) (p : ItemPayload) : Item :=
  { name := p.item.name
    description := if p.descriptionSet then p.item.description else stored.description
    price := p.item.price
    tax := if p.taxSet then p.item.tax else stored.tax
    tags := if p.tagsSet then p.item.tags else stored.tags
    images := if p.imagesSet then p.item.images else stored.images }

/-- Python dict assignment `d[key] = v` on an association list: replace the
value when the key is present, append otherwise. -/
def dictSet (store : List (String × Item)) (key : String) (v : Item) :
    List (String × Item) :=
  if (store.lookup key).isSome then
    store.map (fun kv => if kv.1 = key then (kv.1, v) else kv)
  else
    store ++ [(key, v)]

/-- Initial items store from src/src/main.py (lines 32 to 42), with each raw
dict read through Item as the PATCH handler does, missing keys taking the
schema defaults. -/
def items : List (String × Item) :=
  [("foo", { name := "Foo", price := 50200 }),
   ("bar", { name := "Bar", description := some "The bartenders", price := 6200,
             tax := some (101/5 : Rat) }),
   ("baz", { name := "Baz", description := none, price := 5020,
             tax := some (21/2 : Rat), tags := [] })]

/-- update_item handler for PATCH /items/\x7bitem_id\x7d in src/src/main.py
(the second function of that name). `items[item_id]` is an unguarded dict
lookup: a missing key raises KeyError before any write, leaving the store
unchanged; otherwise the stored entry is replaced by the merge. -/
def update_item_patch (store : List (String × Item)) (item_id : String)
    (item : ItemPayload) : Except PyError Item × List (String × Item) :=
  match store.lookup item_id with
  | none => (.error (.keyError item_id), store)
  | some stored_item_model =>
    let updated_item := copyUpdate stored_item_model item
    (.ok updated_item, dictSet store item_id updated_item)

/-- Vehicle record covering BaseVehicle, CarVehicle and PlaneVehicle from
src/src/schemas.py: PlaneVehicle adds the required size field, absent for a
car. -/
structure Vehicle where
  description : String
  type : String
  size : Option Int := none
  deriving Repr, DecidableEq

/-- Vehicles store from src/src/main.py (lines 44 to 51). -/
def vehicles : List (String × Vehicle) :=
  [("vehicle1", { description := "All my friends drive a low rider", type := "car" }),
   ("vehicle2", { description := "Music is my aeroplane, it\x27s my aeroplane",
                  type := "plane", size := some 5 })]

/-- read_vehicle handler for GET /vehicles/\x7bvehicle_id\x7d in
src/src/main.py: looks up the key "vehicle" prepended to the path parameter
and raises a 404 HTTPException when the store has no such entry. -/
def read_vehicle (vehicle_id : String) : Except PyError Vehicle :=
  match vehicles.lookup ("vehicle" ++ vehicle_id) with
  | none => .error (.http { status_code := 404, detail := "Vehicle not found." })
  | some vehicle => .ok vehicle

/-- Offer schema from src/src/schemas.py. `Field(example=uuid4())` attaches
only an OpenAPI example, so id has no default and is a required input field;
the datetimes are optional. -/
structure Offer where
  id : Nat
  name : String
  description : Option String := none
  price : Rat
  items : List Item
  start_datetime : Option Int := none
  end_datetime : Option Int := none
  repeat_at : Option Int := none
  deriving Repr, DecidableEq

/-- Raw request body of POST /offers/ before validation: every field as
submitted, with id possibly absent. -/
structure OfferInput where
  id : Option Nat := none
  name : String
  description : Option String := none
  price : Rat
  items : List Item
  start_datetime : Option Int := none
  end_datetime : Option Int := none
  repeat_at : Option Int := none
  deriving Repr, DecidableEq

/-- Framework validation of an Offer body: id is required (the schema gives
it no default), and every nested Item must satisfy its price bounds. -/
def parseOffer (i : OfferInput) : Except PyError Offer :=
  match i.id with
  | none => .error .validationError
  | some v =>
    if i.items.all (fun it => Item.priceValid it.price) then
      .ok { id := v, name := i.name, description := i.description, price := i.price,
            items := i.items, start_datetime := i.start_datetime,
            end_datetime := i.end_datetime, repeat_at := i.repeat_at }
    else
      .error .validationError

/-- Dict returned by the create_offer handler: every Offer field plus the
computed duration. -/
structure OfferResponse where
  id : Nat
  name : String
  description : Option String
  price : Rat
  items : List Item
  start_datetime : Option Int
  end_datetime : Option Int
  repeat_at : Option Int
  duration : Int
  deriving Repr, DecidableEq

/-- create_offer handler for POST /offers/ in src/src/main.py. The handler
subtracts the two optional datetimes unconditionally; in Python a subtraction
involving None raises TypeError, so the body only produces a response when
both datetimes are present. -/
def create_offer (offer : Offer) : Except PyError OfferResponse :=
  match offer.end_datetime, offer.start_datetime with
  | some e, some s =>
    .ok { id := offer.id, name := offer.name, description := offer.description,
          price := offer.price, items := offer.items,
          start_datetime := offer.start_datetime,
          end_datetime := offer.end_datetime, repeat_at := offer.repeat_at,
          duration := e - s }
  | _, _ => .error .typeError

/-- Serialization of the create_offer return dict through the declared
response_model=Offer of the route: pydantic keeps exactly the Offer schema
fields and silently drops the extra duration key, the same filtering the
UserOut return type performs for POST /user/. -/
def serializeOffer (r : OfferResponse) : Offer :=
  { id := r.id, name := r.name, description := r.description, price := r.price,
    items := r.items, start_datetime := r.start_datetime,
    end_datetime := r.end_datetime, repeat_at := r.repeat_at }

/-- POST /offers/ pipeline: body validation, the handler, then serialization
of the returned dict through response_model=Offer. -/
def postOffersRoute (i : OfferInput) : Except PyError Offer :=
  ((parseOffer i).bind create_offer).map serializeOffer

/-- Successful response of POST /login in src/src/main.py. -/
structure LoginResponse where
  token : String
  username : String
  deriving Repr, DecidableEq

/-- login handler for POST /login in src/src/main.py: the fixed password
check against the literal "password123". -/
def login (username password : String) : Except PyError LoginResponse :=
  if password = "password123" then
    .ok { token := "user_token", username := username }
  else
    .error (.http { status_code := 400,
                    detail := "Incorrect username and/or password." })

/-- Modelled from the spec: src/src/exceptions.py is imported by
src/src/main.py but absent from the source tree. Per the spec there is
exactly one custom error type, UnicornException, carrying the name that was
passed when it was raised. -/
structure UnicornException where
  name : String
  deriving Repr, DecidableEq

/-- JSON error response produced by an exception handler: a status code and
the message content. -/
structure JSONErrorResponse where
  status_code : Nat
  message : String
  deriving Repr, DecidableEq

/-- unicorn_exception_handler from src/src/main.py: every UnicornException
becomes a 418 response with the templated message. -/
def unicorn_exception_handler (exc : UnicornException) : JSONErrorResponse :=
  { status_code := 418
    message := "Oops! " ++ exc.name ++ " did something. There goes a rainbow..." }

/-- Successful response of GET /unicorns/\x7bname\x7d. -/
structure UnicornResponse where
  unicorn_name : String
  deriving Repr, DecidableEq

/-- read_unicorn handler from src/src/main.py: raises UnicornException
exactly when the path parameter is "yolo". -/
def read_unicorn (name : String) : Except UnicornException UnicornResponse :=
  if name = "yolo" then .error { name := name } else .ok { unicorn_name := name }

/-- GET /unicorns/\x7bname\x7d pipeline: a raised UnicornException is routed
through the registered exception handler. -/
def readUnicornRoute (name : String) : JSONErrorResponse ⊕ UnicornResponse :=
  match read_unicorn name with
  | .error exc => .inl (unicorn_exception_handler exc)
  | .ok r => .inr r

/-- Successful response of GET /tracks/\x7btrack_id\x7d. -/
structure TrackResponse where
  track_id : Int
  deriving Repr, DecidableEq

/-- read_exceptions handler for GET /tracks/\x7btrack_id\x7d in
src/src/main.py: a 418 HTTPException for the magic track id 3, the echoed id
otherwise. -/
def read_exceptions (track_id : Int) : Except PyError TrackResponse :=
  if track_id = 3 then
    .error (.http { status_code := 418, detail := "Nope! I don\x27t like 3." })
  else
    .ok { track_id := track_id }

/-- UserIn schema from src/src/schemas.py: the BaseUser fields plus the raw
password. -/
structure UserIn where
  username : String
  email : String
  full_name : Option String := none
  raw_password : String
  deriving Repr, DecidableEq

/-- UserOut schema from src/src/schemas.py: exactly the BaseUser fields,
nothing else. -/
structure UserOut where
  username : String
  email : String
  full_name : Option String := none
  deriving Repr, DecidableEq

/-- UserInDB schema from src/src/schemas.py: the BaseUser fields plus the
hashed password. -/
structure UserInDB where
  username : String
  email : String
  full_name : Option String := none
  hashed_password : String
  deriving Repr, DecidableEq

/-- fake_hash_pwd from src/src/functions.py. -/
def fake_hash_pwd (raw_password : String) : String :=
  "hashed" ++ raw_password

/-- fake_save_user from src/src/functions.py: builds a UserInDB from the
input fields and the hashed password. -/
def fake_save_user (user_input : UserIn) : UserInDB :=
  { username := user_input.username, email := user_input.email,
    full_name := user_input.full_name,
    hashed_password := fake_hash_pwd user_input.raw_password }

/-- create_user handler for POST /user/ in src/src/main.py. The declared
response type UserOut makes the framework serialize only the three BaseUser
fields of the returned UserInDB. -/
def create_user (user : UserIn) : UserOut :=
  let user_saved := fake_save_user user
  { username := user_saved.username, email := user_saved.email,
    full_name := user_saved.full_name }

/-- C1: every Item accepted by validation has 100 < price and price ≤
99999999, and for every Item body with price ≤ 100 validation fails with a
422, so neither the POST /items/ handler nor the PUT /items/ handler body
runs. -/
theorem c1_item_price_validation (i : Item) :
    (∀ i2, parseItem i = Except.ok i2 → 100 < i2.price ∧ i2.price ≤ 99999999) ∧
    (i.price ≤ 100 →
      parseItem i = Except.error PyError.validationError ∧
      postItemsRoute i = Except.error PyError.validationError ∧
      ∀ item_id options q oq,
        putItemRoute item_id i options q oq = Except.error PyError.validationError) := by
  constructor
  · intro i2 h
    unfold parseItem at h
    split at h
    · cases h
      simpa [Item.priceValid] using ‹Item.priceValid i.price = true›
    · cases h
  · intro hle
    have hv : Item.priceValid i.price = false := by
      simp only [Item.priceValid, Bool.and_eq_false_iff, decide_eq_false_iff_not, not_lt]
      left
      omega
    refine ⟨?_, ?_, ?_⟩ <;>
      simp [parseItem, postItemsRoute, putItemRoute, hv, Except.map, Except.bind]

/-- Witness for C1 at the concrete item named cheap with price 50. -/
theorem c1_item_price_validation_witness :
    parseItem { name := "cheap", price := 50 } = Except.error PyError.validationError ∧
    postItemsRoute { name := "cheap", price := 50 } = Except.error PyError.validationError := by
  have h := (c1_item_price_validation { name := "cheap", price := 50 }).2 (by decide)
  exact ⟨h.1, h.2.1⟩

/-- C2: when the vehicles store has no entry corresponding to the path
parameter (the key is the parameter prefixed with the word vehicle), the
handler raises a 404 with the fixed message, and when it has one, that entry
is returned with no error. -/
theorem c2_read_vehicle (vehicle_id : String) :
    (vehicles.lookup ("vehicle" ++ vehicle_id) = none →
      read_vehicle vehicle_id =
        Except.error (PyError.http { status_code := 404, detail := "Vehicle not found." })) ∧
    (∀ v, vehicles.lookup ("vehicle" ++ vehicle_id) = some v →
      read_vehicle vehicle_id = Except.ok v) := by
  constructor
  · intro h
    simp [read_vehicle, h]
  · intro v h
    simp [read_vehicle, h]

/-- Witness for C2: the id 99 has no entry and yields the 404, the id 1
resolves to the stored car. -/
theorem c2_read_vehicle_witness :
    read_vehicle "99" =
      Except.error (PyError.http { status_code := 404, detail := "Vehicle not found." }) ∧
    read_vehicle "1" =
      Except.ok { description := "All my friends drive a low rider", type := "car" } := by
  exact ⟨(c2_read_vehicle "99").1 (by decide),
         (c2_read_vehicle "1").2 _ (by decide)⟩

/-- C4: the login handler succeeds with the fixed token and the submitted
username exactly when the password is the literal "password123"; any other
password yields the 400 HTTPException, whatever the username. -/
theorem c4_login (username password : String) :
    (login username password = Except.ok { token := "user_token", username := username }
      ↔ password = "password123") ∧
    (password ≠ "password123" →
      login username password =
        Except.error
          (PyError.http { status_code := 400, detail := "Incorrect username and/or password." })) := by
  constructor
  · constructor
    · intro h
      by_cases hp : password = "password123"
      · exact hp
      · simp [login, hp] at h
    · intro hp
      simp [login, hp]
  · intro hp
    simp [login, hp]

/-- Witness for C4 at a correct and at an incorrect password. -/
theorem c4_login_witness :
    login "alice" "password123" = Except.ok { token := "user_token", username := "alice" } ∧
    login "bob" "hunter2" =
      Except.error
        (PyError.http { status_code := 400, detail := "Incorrect username and/or password." }) := by
  exact ⟨(c4_login "alice" "password123").1.mpr rfl,
         (c4_login "bob" "hunter2").2 (by decide)⟩

/-- C7: GET /tracks raises the 418 HTTPException exactly when the track id is
the magic value 3, and returns the echoed track id for every other integer. -/
theorem c7_tracks (track_id : Int) :
    (read_exceptions track_id =
      Except.error (PyError.http { status_code := 418, detail := "Nope! I don\x27t like 3." })
      ↔ track_id = 3) ∧
    (track_id ≠ 3 → read_exceptions track_id = Except.ok { track_id := track_id }) := by
  constructor
  · by_cases h : track_id = 3 <;> simp [read_exceptions, h]
  · intro h
    simp [read_exceptions, h]

/-- Witness for C7 at the magic id 3 and at the ordinary id 5. -/
theorem c7_tracks_witness :
    read_exceptions 3 =
      Except.error (PyError.http { status_code := 418, detail := "Nope! I don\x27t like 3." }) ∧
    read_exceptions 5 = Except.ok { track_id := 5 } := by
  exact ⟨(c7_tracks 3).1.mpr rfl, (c7_tracks 5).2 (by decide)⟩

/-- Concrete Offer body for C3: validates (id present, no items) but has no
end_datetime. -/
def offerInputC3 : OfferInput :=
  { id := some 1, name := "pack", price := 35000, items := [], start_datetime := some 0 }

/-- C3 counterexample: an Offer whose end_datetime is absent is accepted by
validation, yet the handler body raises TypeError on the datetime
subtraction, so no response with a duration field is produced for it. -/
theorem c3_counterexample :
    postOffersRoute offerInputC3 = Except.error PyError.typeError := by
  rfl

/-- C3 amended: for every Offer with both datetimes present, the handler
builds the dict of all the Offer fields unchanged plus a duration key equal
to end_datetime minus start_datetime, but the response_model=Offer
serialization drops that extra key, so the actual response is exactly the
input Offer and carries no duration field; when either datetime is missing
the subtraction raises TypeError and no response is produced. -/
theorem c3_offer_duration (offer : Offer) :
    (∀ e s, offer.end_datetime = some e → offer.start_datetime = some s →
      create_offer offer = Except.ok
        { id := offer.id, name := offer.name, description := offer.description,
          price := offer.price, items := offer.items,
          start_datetime := offer.start_datetime,
          end_datetime := offer.end_datetime, repeat_at := offer.repeat_at,
          duration := e - s } ∧
      (create_offer offer).map serializeOffer = Except.ok offer) ∧
    ((offer.end_datetime = none ∨ offer.start_datetime = none) →
      create_offer offer = Except.error PyError.typeError) := by
  constructor
  · intro e s he hs
    have hok : create_offer offer = Except.ok
        { id := offer.id, name := offer.name, description := offer.description,
          price := offer.price, items := offer.items,
          start_datetime := offer.start_datetime,
          end_datetime := offer.end_datetime, repeat_at := offer.repeat_at,
          duration := e - s } := by
      simp [create_offer, he, hs]
    refine ⟨hok, ?_⟩
    rw [hok]
    simp [Except.map, serializeOffer]
  · intro h
    rcases h with h | h <;>
      · unfold create_offer
        rcases he : offer.end_datetime with _ | e <;>
          rcases hs : offer.start_datetime with _ | s <;>
            simp_all

/-- Witness for C3 amended at an Offer running from time 10 to time 25: the
handler dict holds duration 15, and the serialized response is the input
Offer itself, without a duration field. -/
theorem c3_offer_duration_witness :
    create_offer
        { id := 2, name := "pack", price := 35000, items := [],
          start_datetime := some 10, end_datetime := some 25 } =
      Except.ok
        { id := 2, name := "pack", description := none, price := 35000, items := [],
          start_datetime := some 10, end_datetime := some 25, repeat_at := none,
          duration := 15 } ∧
    (create_offer
        { id := 2, name := "pack", price := 35000, items := [],
          start_datetime := some 10, end_datetime := some 25 }).map serializeOffer =
      Except.ok
        { id := 2, name := "pack", price := 35000, items := [],
          start_datetime := some 10, end_datetime := some 25 } := by
  exact (c3_offer_duration
    { id := 2, name := "pack", price := 35000, items := [],
      start_datetime := some 10, end_datetime := some 25 }).1 25 10 rfl rfl

/-- Concrete Offer body for C5 with the caller-supplied id 7. -/
def offerInputC5 : OfferInput :=
  { id := some 7, name := "pack", price := 200, items := [] }

/-- Concrete Offer body for C5 with no id. -/
def offerInputC5NoId : OfferInput :=
  { name := "pack", price := 200, items := [] }

/-- C5 counterexample: no UUID is generated at Offer creation. A body without
an id fails validation (the id is required from the caller, since
Field(example=uuid4()) only records a documentation example), and the same
full input parses to the same Offer with the same id 7 every time, not to
Offers with distinct ids. -/
theorem c5_counterexample :
    parseOffer offerInputC5NoId = Except.error PyError.validationError ∧
    parseOffer offerInputC5 =
      Except.ok { id := 7, name := "pack", price := 200, items := [] } ∧
    (parseOffer offerInputC5).map Offer.id = (parseOffer offerInputC5).map Offer.id := by
  exact ⟨rfl, rfl, rfl⟩

/-- C5 amended: the Offer id is a required field supplied by the caller; the
uuid4 call in the schema only produces an OpenAPI example once at class
definition time. Validation fails when the id is absent, and every accepted
Offer carries exactly the submitted id, so Offers built from identical input
have identical ids. -/
theorem c5_offer_id_from_caller (i : OfferInput) :
    (i.id = none → parseOffer i = Except.error PyError.validationError) ∧
    (∀ o, parseOffer i = Except.ok o → i.id = some o.id) := by
  constructor
  · intro h
    simp [parseOffer, h]
  · intro o h
    rcases hid : i.id with _ | v
    · have herr : parseOffer i = Except.error PyError.validationError := by
        simp [parseOffer, hid]
      rw [herr] at h
      cases h
    · by_cases hall : (i.items.all fun it => Item.priceValid it.price) = true
      · have hok : parseOffer i = Except.ok
            { id := v, name := i.name, description := i.description, price := i.price,
              items := i.items, start_datetime := i.start_datetime,
              end_datetime := i.end_datetime, repeat_at := i.repeat_at } := by
          simp [parseOffer, hid, hall]
        rw [hok] at h
        cases h
        rfl
      · have herr : parseOffer i = Except.error PyError.validationError := by
          simp [parseOffer, hid, hall]
        rw [herr] at h
        cases h

/-- Witness for C5 amended at the two concrete Offer bodies. -/
theorem c5_offer_id_from_caller_witness :
    parseOffer offerInputC5NoId = Except.error PyError.validationError ∧
    offerInputC5.id = some 7 := by
  refine ⟨(c5_offer_id_from_caller offerInputC5NoId).1 rfl, ?_⟩
  exact (c5_offer_id_from_caller offerInputC5).2
    { id := 7, name := "pack", price := 200, items := [] } rfl

/-- C6: every UnicornException is mapped by the registered handler to a 418
response with the fixed templated message instantiated with the exception
name, and GET /unicorns raises it exactly when the path parameter is yolo;
any other name is echoed back unharmed. -/
theorem c6_unicorn (name : String) :
    (∀ exc : UnicornException, unicorn_exception_handler exc =
      { status_code := 418,
        message := "Oops! " ++ exc.name ++ " did something. There goes a rainbow..." }) ∧
    (readUnicornRoute name =
      Sum.inl ⟨418, "Oops! " ++ name ++ " did something. There goes a rainbow..."⟩
      ↔ name = "yolo") ∧
    (name ≠ "yolo" → readUnicornRoute name = Sum.inr { unicorn_name := name }) := by
  refine ⟨fun exc => rfl, ?_, ?_⟩
  · by_cases h : name = "yolo" <;>
      simp [readUnicornRoute, read_unicorn, unicorn_exception_handler, h]
  · intro h
    simp [readUnicornRoute, read_unicorn, h]

/-- Witness for C6 at the magic name yolo and at an ordinary name. -/
theorem c6_unicorn_witness :
    readUnicornRoute "yolo" =
      Sum.inl ⟨418, "Oops! yolo did something. There goes a rainbow..."⟩ ∧
    readUnicornRoute "bob" = Sum.inr { unicorn_name := "bob" } := by
  exact ⟨(c6_unicorn "yolo").2.1.mpr rfl, (c6_unicorn "bob").2.2 (by decide)⟩

/-- C8: the POST /user/ response carries exactly the three BaseUser fields of
the input (the UserOut type has no other field, so neither raw_password nor
hashed_password can appear), and two requests that agree on those three
fields, differing only in raw_password, produce identical responses. -/
theorem c8_user_response_no_password (u : UserIn) :
    create_user u =
      { username := u.username, email := u.email, full_name := u.full_name } ∧
    (∀ u2 : UserIn, u2.username = u.username → u2.email = u.email →
      u2.full_name = u.full_name → create_user u2 = create_user u) := by
  constructor
  · rfl
  · intro u2 h1 h2 h3
    simp [create_user, fake_save_user, h1, h2, h3]

/-- Witness for C8: two concrete users differing only in raw_password get the
same response, which consists of the three BaseUser fields. -/
theorem c8_user_response_no_password_witness :
    create_user { username := "ada", email := "ada@mail.test", raw_password := "pw1" } =
      { username := "ada", email := "ada@mail.test", full_name := none } ∧
    create_user { username := "ada", email := "ada@mail.test", raw_password := "pw2" } =
      create_user { username := "ada", email := "ada@mail.test", raw_password := "pw1" } := by
  exact ⟨(c8_user_response_no_password
            { username := "ada", email := "ada@mail.test", raw_password := "pw1" }).1,
         (c8_user_response_no_password
            { username := "ada", email := "ada@mail.test", raw_password := "pw1" }).2
            { username := "ada", email := "ada@mail.test", raw_password := "pw2" }
            rfl rfl rfl⟩

/-- C9: PATCH /items with an item_id outside the store hits the unguarded
dict lookup and ends in a KeyError, not a 404 HTTPException, with the store
untouched; for an item_id in the store, the stored entry is replaced by the
stored item with every explicitly set field of the request overriding it. -/
theorem c9_patch_item (store : List (String × Item)) (item_id : String) (p : ItemPayload) :
    (store.lookup item_id = none →
      update_item_patch store item_id p = (Except.error (PyError.keyError item_id), store)) ∧
    (∀ s, store.lookup item_id = some s →
      update_item_patch store item_id p =
        (Except.ok (copyUpdate s p), dictSet store item_id (copyUpdate s p)) ∧
      copyUpdate s p =
        { name := p.item.name
          description := if p.descriptionSet then p.item.description else s.description
          price := p.item.price
          tax := if p.taxSet then p.item.tax else s.tax
          tags := if p.tagsSet then p.item.tags else s.tags
          images := if p.imagesSet then p.item.images else s.images }) := by
  constructor
  · intro h
    simp [update_item_patch, h]
  · intro s h
    exact ⟨by simp [update_item_patch, h], rfl⟩

/-- Concrete PATCH payload for the C9 witness: sets a new description, leaves
tax, tags and images unset. -/
def payloadC9 : ItemPayload :=
  { item := { name := "Foo2", price := 200, description := some "updated" }
    descriptionSet := true
    taxSet := false
    tagsSet := false
    imagesSet := false }

/-- Witness for C9 on the real items store: the absent key qux raises
KeyError and leaves the store unchanged; the present key foo is replaced by
the merge of the stored item and the payload. -/
theorem c9_patch_item_witness :
    update_item_patch items "qux" payloadC9 = (Except.error (PyError.keyError "qux"), items) ∧
    update_item_patch items "foo" payloadC9 =
      (Except.ok (copyUpdate { name := "Foo", price := 50200 } payloadC9),
       dictSet items "foo" (copyUpdate { name := "Foo", price := 50200 } payloadC9)) := by
  exact ⟨(c9_patch_item items "qux" payloadC9).1 rfl,
         ((c9_patch_item items "foo" payloadC9).2 { name := "Foo", price := 50200 } rfl).1⟩

/-- C10: a PUT /items request whose body omits the embedded options object
leaves options at its None default and the access to options.hidden raises an
uncaught AttributeError; with options supplied the handler always produces a
response, and with hidden set the response holds only the two query fields
and no item. -/
theorem c10_put_options (item_id : Int) (item : Item) (q : String) (oq : Option String) :
    (update_item_put item_id item none q oq =
      Except.error (PyError.attributeError "hidden")) ∧
    (∀ opts : ItemOptions, opts.hidden = true →
      update_item_put item_id item (some opts) q oq =
        Except.ok { query := q, opt_query := oq, item := none }) ∧
    (∀ opts : ItemOptions, opts.hidden = false →
      update_item_put item_id item (some opts) q oq =
        Except.ok { query := q, opt_query := oq,
                    item := some { item_id := item_id, item := item,
                                   promotion := opts.promotion,
                                   shipping_available := opts.shipping_available } }) := by
  refine ⟨rfl, ?_, ?_⟩
  · intro opts h
    simp [update_item_put, h]
  · intro opts h
    simp [update_item_put, h]

/-- Witness for C10 at a concrete item and query, with options absent, hidden
and visible. -/
theorem c10_put_options_witness :
    update_item_put 1 { name := "kb", price := 7900 } none "qry" none =
      Except.error (PyError.attributeError "hidden") ∧
    update_item_put 1 { name := "kb", price := 7900 }
        (some { promotion := 5, hidden := true, shipping_available := true }) "qry" none =
      Except.ok { query := "qry", opt_query := none, item := none } ∧
    update_item_put 1 { name := "kb", price := 7900 }
        (some { promotion := 5, hidden := false, shipping_available := true }) "qry" none =
      Except.ok { query := "qry", opt_query := none,
                  item := some { item_id := 1, item := { name := "kb", price := 7900 },
                                 promotion := 5, shipping_available := true } } := by
  exact ⟨(c10_put_options 1 { name := "kb", price := 7900 } "qry" none).1,
         (c10_put_options 1 { name := "kb", price := 7900 } "qry" none).2.1
           { promotion := 5, hidden := true, shipping_available := true } rfl,
         (c10_put_options 1 { name := "kb", price := 7900 } "qry" none).2.2
           { promotion := 5, hidden := false, shipping_available := true } rfl⟩

end FastApiIntro
